import Mathlib

/-!
Shallow embedding of the advent-calendar treasure chest controller
(`src/advent/advent.ino`).  The finite state machine in `loop()` is
modelled as a pure step function `fsmStep` over an explicit machine
state; actuator effects (audio playback, lock servo moves, blocking
delays) become an emitted command list, and serial prints become a
diagnostic string list.  Audio success and failure are supplied by an
oracle `audioOk : Nat → Bool`; `playTrack` issues the play command
unconditionally and records a diagnostic line on failure, exactly as
the source does.
-/

namespace Advent

/-- RFID key classification results (`UserMaster` / `UserStandard` /
`UserUnknown` in the source). -/
inductive User where
  | Master
  | Standard
  | Unknown
deriving DecidableEq, Repr

/-- States of the finite state machine (`StateOpenedForFilling` …
`StateOffSeason` in the source; `OpenedForEmptiing` keeps the spelling
used by the source). -/
inductive BoxState where
  | OpenedForFilling
  | Filled
  | ReadyForFirstUse
  | OpenedForChecking
  | ReadyForUse
  | OpenedForEmptiing
  | Empty
  | OffSeason
deriving DecidableEq, Repr

/-- Actuator commands emitted by a step: audio track playback, lock
servo move to the closed position, lock servo move to the open position
(each `lockLid` / `unlockLid` includes its fixed settle delay), and the
explicit blocking `delay(ms)` calls of the source. -/
inductive Command where
  | play (track : Nat)
  | lock
  | unlock
  | wait (ms : Nat)
deriving DecidableEq, Repr

-- Track numbers of the AudioFX tracks, as declared in the source.
def AnnouncementBoxFilled : Nat := 0
def AnnouncementBoxOpenedForCheck : Nat := 1
def AnnouncementBoxClosedAfterCheck : Nat := 2
def AnnouncementBoxOpenedForCheckAlreadyPreparedForFirstUse : Nat := 3
def AnnouncementBoxClosedAfterCheckAlreadyPreparedForFirstUse : Nat := 4
def AnnouncementBoxOpenedForCheckAlreadyPrepared : Nat := 5
def AnnouncementBoxClosedAfterCheckAlreadyPrepared : Nat := 6
def AnnouncementFirsUseExplanation : Nat := 7
def AnnouncementBoxClosed : Nat := 8
def AnnouncementLastDay : Nat := 9
def AnnouncementBoxOpenedForFilling : Nat := 10
def AnnouncementBoxOpenedForFirstFilling : Nat := 11
def AnnouncementUnknownKey : Nat := 12
def AnnouncementUserTriedEarly : Nat := 13
def AnnouncementUserTriedAgain : Nat := 14
def AnnouncementUserTriedOffSeason : Nat := 15
def DaylyEarlyMorningGreeting : Nat := 16
def DaylyMorningGreeting : Nat := 17
def DaylyGreeting : Nat := 18

/-- List of track numbers for the dayly announcements (24 entries,
tracks 19–42; the source indexes it with `rtc.date() - 1`). -/
def DaylyAnnouncement : List Nat :=
  [19, 20, 21, 22, 23, 24, 25, 26,
   27, 28, 29, 30, 31, 32, 33, 34,
   35, 36, 37, 38, 39, 40, 41, 42]

/-- The fixed master RFID key bytes. -/
def RFIDMasterKey : List Nat := [0x04, 0xFE, 0xB3, 0x7A, 0xAF, 0x48, 0x80]

/-- The fixed standard RFID key bytes. -/
def RFIDStandardKey : List Nat := [0x04, 0x72, 0xD9, 0x7A, 0xAF, 0x48, 0x80]

/-- Calendar fields read from the real-time clock each cycle. -/
structure Rtc where
  month : Int
  date : Int
  hour : Int
deriving DecidableEq, Repr

/-- Inputs of one poll cycle: the clock fields, whether the lid switch
reads closed (`digitalRead(LID_BUTTON) == LOW`), and the raw uid bytes
when a new card was present and its serial was read this cycle
(`PICC_IsNewCardPresent` and `PICC_ReadCardSerial` both succeeded). -/
structure Input where
  rtc : Rtc
  lidClosed : Bool
  card : Option (List Nat)
deriving DecidableEq, Repr

/-- The mutable globals of the controller: `boxState`, `lastDay`
(int8_t, initially -1), `blinking`, `firstUse`, the diagnostic-only
`lastState` (int8_t, initially -1, modelled as `Option BoxState`), and
`userKey`. -/
structure Machine where
  boxState : BoxState
  lastDay : Int
  blinking : Bool
  firstUse : Bool
  lastState : Option BoxState
  userKey : User
deriving DecidableEq, Repr

/-- Result of one FSM step: the updated globals, the actuator commands
issued (in order), and the serial diagnostic lines printed. -/
structure StepResult where
  machine : Machine
  commands : List Command
  diags : List String
deriving DecidableEq, Repr

/-- `readRFIDKey()`: exact-length check against each fixed key followed
by a byte comparison over the length of that key (`memcmp` over
`sizeof(key)` bytes, modelled with `List.take`).  Master is tried
first, then Standard, else Unknown. -/
def readRFIDKey (uid : List Nat) : User :=
  if uid.length = RFIDMasterKey.length ∧ uid.take RFIDMasterKey.length = RFIDMasterKey then
    User.Master
  else if uid.length = RFIDStandardKey.length ∧ uid.take RFIDStandardKey.length = RFIDStandardKey then
    User.Standard
  else
    User.Unknown

/-- `playTrack(track)`: the play command is always issued; on failure of
`sfx.playTrack` only a diagnostic line is printed. -/
def playTrack (audioOk : Nat → Bool) (track : Nat) : List Command × List String :=
  ([Command.play track],
   if audioOk track then [] else ["Failed to play track " ++ toString track])

/-- `doDailyAnnouncement()`: greeting chosen by ordered hour-band
guards, a fixed 5 s delay, then the date-indexed dayly track
`DaylyAnnouncement[rtc.date() - 1]` (out-of-range reads modelled with
`List.getD`; the in-bounds condition is `dailyTrackIndexOk`). -/
def doDailyAnnouncement (audioOk : Nat → Bool) (rtc : Rtc) : List Command × List String :=
  let g :=
    if 5 < rtc.hour ∧ rtc.hour < 7 then playTrack audioOk DaylyEarlyMorningGreeting
    else if 5 < rtc.hour ∧ rtc.hour < 11 then playTrack audioOk DaylyMorningGreeting
    else playTrack audioOk DaylyGreeting
  let d := playTrack audioOk (DaylyAnnouncement.getD (rtc.date - 1).toNat 0)
  (g.1 ++ [Command.wait 5000] ++ d.1, g.2 ++ d.2)

/-- The array access `DaylyAnnouncement[rtc.date() - 1]` is in bounds
exactly when the (possibly negative) index `date - 1` lies within the
24-entry table. -/
def dailyTrackIndexOk (date : Int) : Prop :=
  0 ≤ date - 1 ∧ date - 1 < (DaylyAnnouncement.length : Int)

instance (date : Int) : Decidable (dailyTrackIndexOk date) := by
  unfold dailyTrackIndexOk; infer_instance

/-- Each `case` of the FSM switch starts with
`if(lastState != boxState) { Serial.println(msg); lastState = boxState; }`. -/
def diagState (m : Machine) (msg : String) : Machine × List String :=
  if m.lastState = some m.boxState then (m, [])
  else ({ m with lastState := some m.boxState }, [msg])

/-- The body of `case StateReadyForUse`.  It is a separate definition
because `case StateOpenedForChecking` in the source has no terminating
`break` when the lid is open and falls through into this code. -/
def readyForUseBody (audioOk : Nat → Bool) (m : Machine) (inp : Input) : StepResult :=
  let md := diagState m "State: Ready for use"
  match inp.card with
  | none => ⟨md.1, [], md.2⟩
  | some uid =>
    let u := readRFIDKey uid
    let m2 := { md.1 with userKey := u }
    match u with
    | User.Master =>
      let p := playTrack audioOk AnnouncementBoxOpenedForCheckAlreadyPrepared
      ⟨{ m2 with boxState := BoxState.OpenedForChecking },
        p.1 ++ [Command.unlock, Command.wait 5000], md.2 ++ p.2⟩
    | User.Standard =>
      let p := doDailyAnnouncement audioOk inp.rtc
      ⟨{ m2 with lastDay := inp.rtc.date, boxState := BoxState.OpenedForEmptiing },
        p.1 ++ [Command.unlock, Command.wait 5000], md.2 ++ p.2⟩
    | User.Unknown =>
      let p := playTrack audioOk AnnouncementUnknownKey
      ⟨{ m2 with boxState := BoxState.ReadyForUse }, p.1, md.2 ++ p.2⟩

/-- One iteration of the FSM `switch(boxState)` in `loop()`, with the
clock already polled into `inp`. -/
def fsmStep (audioOk : Nat → Bool) (m : Machine) (inp : Input) : StepResult :=
  match m.boxState with
  | BoxState.OpenedForFilling =>
    let md := diagState m "State: Openend for filling"
    if inp.lidClosed then
      let p := playTrack audioOk AnnouncementBoxFilled
      ⟨{ md.1 with boxState := BoxState.Filled }, p.1 ++ [Command.lock], md.2 ++ p.2⟩
    else ⟨md.1, [], md.2⟩
  | BoxState.Filled =>
    let md := diagState m "State: Filled"
    if inp.rtc.month = 12 ∧ inp.rtc.date ≠ md.1.lastDay ∧ md.1.firstUse = true then
      ⟨{ md.1 with lastDay := inp.rtc.date, blinking := true,
                   boxState := BoxState.ReadyForFirstUse }, [], md.2⟩
    else if inp.rtc.month = 12 ∧ inp.rtc.date ≠ md.1.lastDay then
      ⟨{ md.1 with blinking := true, boxState := BoxState.ReadyForUse }, [], md.2⟩
    else
      match inp.card with
      | none => ⟨md.1, [], md.2⟩
      | some uid =>
        let u := readRFIDKey uid
        let m2 := { md.1 with userKey := u }
        match u with
        | User.Master =>
          let p := playTrack audioOk AnnouncementBoxOpenedForCheck
          ⟨{ m2 with boxState := BoxState.OpenedForChecking },
            p.1 ++ [Command.unlock, Command.wait 5000], md.2 ++ p.2⟩
        | User.Standard =>
          let p := playTrack audioOk AnnouncementUserTriedEarly
          ⟨{ m2 with boxState := BoxState.Filled }, p.1, md.2 ++ p.2⟩
        | User.Unknown =>
          let p := playTrack audioOk AnnouncementUnknownKey
          ⟨{ m2 with boxState := BoxState.Filled }, p.1, md.2 ++ p.2⟩
  | BoxState.ReadyForFirstUse =>
    let md := diagState m "State: Ready for first use"
    match inp.card with
    | none => ⟨md.1, [], md.2⟩
    | some uid =>
      let u := readRFIDKey uid
      let m2 := { md.1 with userKey := u }
      match u with
      | User.Master =>
        let p := playTrack audioOk AnnouncementBoxOpenedForCheckAlreadyPreparedForFirstUse
        ⟨{ m2 with boxState := BoxState.OpenedForChecking },
          p.1 ++ [Command.unlock, Command.wait 5000], md.2 ++ p.2⟩
      | User.Standard =>
        let p := playTrack audioOk AnnouncementFirsUseExplanation
        ⟨{ m2 with firstUse := false, lastDay := inp.rtc.date,
                   boxState := BoxState.OpenedForEmptiing },
          p.1 ++ [Command.wait 30000, Command.unlock, Command.wait 5000], md.2 ++ p.2⟩
      | User.Unknown =>
        let p := playTrack audioOk AnnouncementUnknownKey
        ⟨{ m2 with boxState := BoxState.ReadyForFirstUse }, p.1, md.2 ++ p.2⟩
  | BoxState.OpenedForChecking =>
    let md := diagState m "State: Openend for checking"
    if inp.lidClosed = true ∧ md.1.firstUse = true then
      let p := playTrack audioOk AnnouncementBoxClosedAfterCheckAlreadyPreparedForFirstUse
      ⟨{ md.1 with boxState := BoxState.ReadyForFirstUse }, p.1 ++ [Command.lock], md.2 ++ p.2⟩
    else if inp.lidClosed = true ∧ inp.rtc.date ≠ md.1.lastDay then
      let p := playTrack audioOk AnnouncementBoxClosedAfterCheckAlreadyPrepared
      ⟨{ md.1 with boxState := BoxState.ReadyForUse }, p.1 ++ [Command.lock], md.2 ++ p.2⟩
    else if inp.lidClosed = true then
      let p := playTrack audioOk AnnouncementBoxClosedAfterCheck
      ⟨{ md.1 with boxState := BoxState.Filled }, p.1 ++ [Command.lock], md.2 ++ p.2⟩
    else
      -- no break: fall through into the ReadyForUse handling
      let r := readyForUseBody audioOk md.1 inp
      ⟨r.machine, r.commands, md.2 ++ r.diags⟩
  | BoxState.ReadyForUse => readyForUseBody audioOk m inp
  | BoxState.OpenedForEmptiing =>
    let md := diagState m "State: Openend for emptiing"
    if inp.lidClosed then
      let p := playTrack audioOk AnnouncementBoxClosed
      ⟨{ md.1 with blinking := false, boxState := BoxState.Empty },
        p.1 ++ [Command.lock], md.2 ++ p.2⟩
    else ⟨md.1, [], md.2⟩
  | BoxState.Empty =>
    let md := diagState m "State: Empty"
    if inp.rtc.date = 24 then
      let p := playTrack audioOk AnnouncementLastDay
      ⟨{ md.1 with boxState := BoxState.OffSeason }, p.1, md.2 ++ p.2⟩
    else
      match inp.card with
      | none => ⟨md.1, [], md.2⟩
      | some uid =>
        let u := readRFIDKey uid
        let m2 := { md.1 with userKey := u }
        match u with
        | User.Master =>
          let p := playTrack audioOk AnnouncementBoxOpenedForFilling
          ⟨{ m2 with boxState := BoxState.OpenedForFilling },
            p.1 ++ [Command.unlock, Command.wait 5000], md.2 ++ p.2⟩
        | User.Standard =>
          let p := playTrack audioOk AnnouncementUserTriedAgain
          ⟨{ m2 with boxState := BoxState.Empty }, p.1, md.2 ++ p.2⟩
        | User.Unknown =>
          let p := playTrack audioOk AnnouncementUnknownKey
          ⟨{ m2 with boxState := BoxState.Empty }, p.1, md.2 ++ p.2⟩
  | BoxState.OffSeason =>
    let md := diagState m "State: Off season"
    match inp.card with
    | none => ⟨md.1, [], md.2⟩
    | some uid =>
      let u := readRFIDKey uid
      let m2 := { md.1 with userKey := u }
      match u with
      | User.Master =>
        let p := playTrack audioOk AnnouncementBoxOpenedForFirstFilling
        if inp.rtc.month = 12 ∧ inp.rtc.date = 1 then
          ⟨{ m2 with firstUse := true, boxState := BoxState.OpenedForFilling },
            p.1 ++ [Command.unlock, Command.wait 6000], md.2 ++ p.2 ++ ["First use"]⟩
        else
          ⟨{ m2 with firstUse := false, boxState := BoxState.OpenedForFilling },
            p.1 ++ [Command.unlock, Command.wait 6000], md.2 ++ p.2 ++ ["Skip first use"]⟩
      | User.Standard =>
        let p := playTrack audioOk AnnouncementUserTriedOffSeason
        ⟨{ m2 with boxState := BoxState.OffSeason }, p.1, md.2 ++ p.2⟩
      | User.Unknown =>
        let p := playTrack audioOk AnnouncementUnknownKey
        ⟨{ m2 with boxState := BoxState.OffSeason }, p.1, md.2 ++ p.2⟩

/-- An audio oracle on which every playback succeeds, used for concrete
evaluations. -/
def audioAllOk : Nat → Bool := fun _ => true

/-- `diagState` only touches the `lastState` field: `boxState` is kept. -/
@[simp] theorem diagState_boxState (m : Machine) (s : String) :
    (diagState m s).1.boxState = m.boxState := by
  unfold diagState; split <;> rfl

/-- `diagState` only touches the `lastState` field: `lastDay` is kept. -/
@[simp] theorem diagState_lastDay (m : Machine) (s : String) :
    (diagState m s).1.lastDay = m.lastDay := by
  unfold diagState; split <;> rfl

/-- `diagState` only touches the `lastState` field: `blinking` is kept. -/
@[simp] theorem diagState_blinking (m : Machine) (s : String) :
    (diagState m s).1.blinking = m.blinking := by
  unfold diagState; split <;> rfl

/-- `diagState` only touches the `lastState` field: `firstUse` is kept. -/
@[simp] theorem diagState_firstUse (m : Machine) (s : String) :
    (diagState m s).1.firstUse = m.firstUse := by
  unfold diagState; split <;> rfl

/-- `diagState` only touches the `lastState` field: `userKey` is kept. -/
@[simp] theorem diagState_userKey (m : Machine) (s : String) :
    (diagState m s).1.userKey = m.userKey := by
  unfold diagState; split <;> rfl

/-- A list equals a reference list iff it has the same length and its
prefix of that length matches, which is the shape of the checks in
`readRFIDKey`. -/
theorem length_take_eq_iff (uid k : List Nat) :
    (uid.length = k.length ∧ uid.take k.length = k) ↔ uid = k := by
  constructor
  · rintro ⟨hl, ht⟩
    rw [← hl, List.take_length] at ht
    exact ht
  · rintro rfl
    exact ⟨rfl, by simp⟩

/-- The command list produced by `doDailyAnnouncement` does not depend
on the audio oracle (only the diagnostics can). -/
theorem doDailyAnnouncement_commands_eq (a b : Nat → Bool) (rtc : Rtc) :
    (doDailyAnnouncement a rtc).1 = (doDailyAnnouncement b rtc).1 := by
  unfold doDailyAnnouncement playTrack
  split_ifs <;> rfl

/-- C1 counterexample: in state `Filled` with `lastDay = 3`,
`firstUse = false`, on a cycle with `month = 12` and `date = 4` the
claimed precondition holds (December, new day), the step moves to
`ReadyForUse`, but `lastDay` is left at 3 instead of being set to the
current date 4 — so the claim that both branches update `lastDay` is
false on the code. -/
theorem C1_counterexample :
    (12 : Int) = 12 ∧ (4 : Int) ≠ 3 ∧
    (fsmStep audioAllOk
        ⟨BoxState.Filled, 3, false, false, some BoxState.Filled, User.Unknown⟩
        ⟨⟨12, 4, 9⟩, false, none⟩).machine.boxState = BoxState.ReadyForUse ∧
    (fsmStep audioAllOk
        ⟨BoxState.Filled, 3, false, false, some BoxState.Filled, User.Unknown⟩
        ⟨⟨12, 4, 9⟩, false, none⟩).machine.lastDay ≠ 4 := by decide

/-- C1 (amended): in state `Filled`, evaluated before credential
handling, whenever `month = 12` and `date ≠ lastDay` the step sets
`blinking` to true; if `firstUse` it also sets `lastDay` to the current
date and moves to `ReadyForFirstUse`, otherwise it leaves `lastDay`
unchanged and moves to `ReadyForUse`. -/
theorem C1_filled_newDay_amended (audioOk : Nat → Bool) (m : Machine) (inp : Input)
    (hs : m.boxState = BoxState.Filled) (hm : inp.rtc.month = 12)
    (hd : inp.rtc.date ≠ m.lastDay) :
    (m.firstUse = true →
       (fsmStep audioOk m inp).machine.boxState = BoxState.ReadyForFirstUse ∧
       (fsmStep audioOk m inp).machine.lastDay = inp.rtc.date ∧
       (fsmStep audioOk m inp).machine.blinking = true) ∧
    (m.firstUse = false →
       (fsmStep audioOk m inp).machine.boxState = BoxState.ReadyForUse ∧
       (fsmStep audioOk m inp).machine.lastDay = m.lastDay ∧
       (fsmStep audioOk m inp).machine.blinking = true) := by
  constructor
  · intro hfu
    simp [fsmStep, hs, hm, hd, hfu]
  · intro hfu
    simp [fsmStep, hs, hm, hd, hfu]

/-- C1 witness: concrete December new-day cycle in `Filled` with
`firstUse = false`, exercising the amended non-firstUse branch. -/
theorem C1_filled_newDay_amended_witness :
    (fsmStep audioAllOk
        ⟨BoxState.Filled, 3, false, false, some BoxState.Filled, User.Unknown⟩
        ⟨⟨12, 4, 9⟩, false, none⟩).machine.boxState = BoxState.ReadyForUse ∧
    (fsmStep audioAllOk
        ⟨BoxState.Filled, 3, false, false, some BoxState.Filled, User.Unknown⟩
        ⟨⟨12, 4, 9⟩, false, none⟩).machine.lastDay = 3 ∧
    (fsmStep audioAllOk
        ⟨BoxState.Filled, 3, false, false, some BoxState.Filled, User.Unknown⟩
        ⟨⟨12, 4, 9⟩, false, none⟩).machine.blinking = true :=
  (C1_filled_newDay_amended audioAllOk
      ⟨BoxState.Filled, 3, false, false, some BoxState.Filled, User.Unknown⟩
      ⟨⟨12, 4, 9⟩, false, none⟩ rfl rfl (by decide)).2 rfl

/-- C2 counterexample: in state `OpenedForChecking` with the lid open,
a presented credential that classifies as Unknown falls through into
the `ReadyForUse` handling, which sets `boxState` to `ReadyForUse` — so
the claim that an Unknown-credential cycle never changes `boxState` in
any state is false on the code. -/
theorem C2_counterexample :
    readRFIDKey [9, 9, 9] = User.Unknown ∧
    (fsmStep audioAllOk
        ⟨BoxState.OpenedForChecking, 3, true, false,
         some BoxState.OpenedForChecking, User.Unknown⟩
        ⟨⟨12, 3, 9⟩, false, some [9, 9, 9]⟩).machine.boxState ≠
      BoxState.OpenedForChecking := by decide

/-- C2 (amended): in every state that reads the credential on the cycle
(`ReadyForFirstUse`, `OffSeason`, `ReadyForUse`, `Filled` when the
December new-day check does not fire, `Empty` when `date ≠ 24`), an
Unknown credential leaves `boxState`, `blinking`, `lastDay` and
`firstUse` unchanged and triggers exactly the unknown-key announcement;
in `OpenedForFilling` and `OpenedForEmptiing` the credential is never
read, so the unknown-key announcement is never played (and `lastDay`,
`firstUse`, `userKey` are unchanged); and in `OpenedForChecking` with
the lid open an Unknown credential plays the unknown-key announcement
but moves `boxState` to `ReadyForUse` through the fall-through. -/
theorem C2_unknown_frame_amended (audioOk : Nat → Bool) (m : Machine) (inp : Input)
    (uid : List Nat) (hcard : inp.card = some uid)
    (hu : readRFIDKey uid = User.Unknown) :
    ((m.boxState = BoxState.ReadyForFirstUse ∨ m.boxState = BoxState.OffSeason ∨
      m.boxState = BoxState.ReadyForUse ∨
      (m.boxState = BoxState.Filled ∧ ¬(inp.rtc.month = 12 ∧ inp.rtc.date ≠ m.lastDay)) ∨
      (m.boxState = BoxState.Empty ∧ inp.rtc.date ≠ 24)) →
      (fsmStep audioOk m inp).machine.boxState = m.boxState ∧
      (fsmStep audioOk m inp).machine.blinking = m.blinking ∧
      (fsmStep audioOk m inp).machine.lastDay = m.lastDay ∧
      (fsmStep audioOk m inp).machine.firstUse = m.firstUse ∧
      (fsmStep audioOk m inp).commands = [Command.play AnnouncementUnknownKey]) ∧
    ((m.boxState = BoxState.OpenedForFilling ∨ m.boxState = BoxState.OpenedForEmptiing) →
      Command.play AnnouncementUnknownKey ∉ (fsmStep audioOk m inp).commands ∧
      (fsmStep audioOk m inp).machine.lastDay = m.lastDay ∧
      (fsmStep audioOk m inp).machine.firstUse = m.firstUse ∧
      (fsmStep audioOk m inp).machine.userKey = m.userKey) ∧
    (m.boxState = BoxState.OpenedForChecking → inp.lidClosed = false →
      (fsmStep audioOk m inp).machine.boxState = BoxState.ReadyForUse ∧
      (fsmStep audioOk m inp).machine.blinking = m.blinking ∧
      (fsmStep audioOk m inp).machine.lastDay = m.lastDay ∧
      (fsmStep audioOk m inp).machine.firstUse = m.firstUse ∧
      (fsmStep audioOk m inp).commands = [Command.play AnnouncementUnknownKey]) := by
  refine ⟨?_, ?_, ?_⟩
  · rintro (hbs | hbs | hbs | ⟨hbs, hcond⟩ | ⟨hbs, hcond⟩)
    · simp [fsmStep, hbs, hcard, hu, playTrack]
    · simp [fsmStep, hbs, hcard, hu, playTrack]
    · simp [fsmStep, readyForUseBody, hbs, hcard, hu, playTrack]
    · have h1 : ¬(inp.rtc.month = 12 ∧ inp.rtc.date ≠ m.lastDay ∧ m.firstUse = true) :=
        fun h => hcond ⟨h.1, h.2.1⟩
      simp [fsmStep, hbs, hcard, hu, playTrack, h1, hcond]
    · simp [fsmStep, hbs, hcard, hu, playTrack, hcond]
  · rintro (hbs | hbs) <;> cases hlid : inp.lidClosed <;>
      simp [fsmStep, hbs, hlid, playTrack, AnnouncementUnknownKey, AnnouncementBoxFilled,
        AnnouncementBoxClosed]
  · intro hbs hlid
    simp [fsmStep, readyForUseBody, hbs, hlid, hcard, hu, playTrack]

/-- C2 witness: an unknown key presented in `OffSeason` leaves all FSM
variables unchanged and plays exactly the unknown-key announcement. -/
theorem C2_unknown_frame_amended_witness :
    (fsmStep audioAllOk ⟨BoxState.OffSeason, -1, false, true, none, User.Unknown⟩
        ⟨⟨11, 5, 9⟩, false, some [9, 9, 9]⟩).machine.boxState = BoxState.OffSeason ∧
    (fsmStep audioAllOk ⟨BoxState.OffSeason, -1, false, true, none, User.Unknown⟩
        ⟨⟨11, 5, 9⟩, false, some [9, 9, 9]⟩).machine.blinking = false ∧
    (fsmStep audioAllOk ⟨BoxState.OffSeason, -1, false, true, none, User.Unknown⟩
        ⟨⟨11, 5, 9⟩, false, some [9, 9, 9]⟩).machine.lastDay = -1 ∧
    (fsmStep audioAllOk ⟨BoxState.OffSeason, -1, false, true, none, User.Unknown⟩
        ⟨⟨11, 5, 9⟩, false, some [9, 9, 9]⟩).machine.firstUse = true ∧
    (fsmStep audioAllOk ⟨BoxState.OffSeason, -1, false, true, none, User.Unknown⟩
        ⟨⟨11, 5, 9⟩, false, some [9, 9, 9]⟩).commands =
      [Command.play AnnouncementUnknownKey] :=
  (C2_unknown_frame_amended audioAllOk
      ⟨BoxState.OffSeason, -1, false, true, none, User.Unknown⟩
      ⟨⟨11, 5, 9⟩, false, some [9, 9, 9]⟩ [9, 9, 9] rfl (by decide)).1
    (Or.inr (Or.inl rfl))

/-- C3: in `OpenedForChecking` with the lid not closed, a Standard
credential is handled by the `ReadyForUse` code in the same cycle (the
intentional fall-through): the Daily Announcement runs, `lastDay` is
set to the current date, the box unlocks, and the state becomes
`OpenedForEmptiing`. -/
theorem C3_checking_fallthrough_standard (audioOk : Nat → Bool) (m : Machine)
    (inp : Input) (uid : List Nat)
    (hs : m.boxState = BoxState.OpenedForChecking) (hlid : inp.lidClosed = false)
    (hcard : inp.card = some uid) (hu : readRFIDKey uid = User.Standard) :
    (fsmStep audioOk m inp).machine.boxState = BoxState.OpenedForEmptiing ∧
    (fsmStep audioOk m inp).machine.lastDay = inp.rtc.date ∧
    (fsmStep audioOk m inp).commands =
      (doDailyAnnouncement audioOk inp.rtc).1 ++ [Command.unlock, Command.wait 5000] := by
  simp [fsmStep, readyForUseBody, hs, hlid, hcard, hu]

/-- C3 witness: concrete fall-through cycle with the standard key. -/
theorem C3_checking_fallthrough_standard_witness :
    (fsmStep audioAllOk
        ⟨BoxState.OpenedForChecking, 3, true, false,
         some BoxState.OpenedForChecking, User.Unknown⟩
        ⟨⟨12, 4, 9⟩, false, some RFIDStandardKey⟩).machine.boxState =
      BoxState.OpenedForEmptiing ∧
    (fsmStep audioAllOk
        ⟨BoxState.OpenedForChecking, 3, true, false,
         some BoxState.OpenedForChecking, User.Unknown⟩
        ⟨⟨12, 4, 9⟩, false, some RFIDStandardKey⟩).machine.lastDay = 4 ∧
    (fsmStep audioAllOk
        ⟨BoxState.OpenedForChecking, 3, true, false,
         some BoxState.OpenedForChecking, User.Unknown⟩
        ⟨⟨12, 4, 9⟩, false, some RFIDStandardKey⟩).commands =
      (doDailyAnnouncement audioAllOk ⟨12, 4, 9⟩).1 ++ [Command.unlock, Command.wait 5000] :=
  C3_checking_fallthrough_standard audioAllOk
    ⟨BoxState.OpenedForChecking, 3, true, false,
     some BoxState.OpenedForChecking, User.Unknown⟩
    ⟨⟨12, 4, 9⟩, false, some RFIDStandardKey⟩ RFIDStandardKey rfl rfl rfl (by decide)

/-- C4: in `Empty`, the `date == 24` check is evaluated before any
credential handling: on such a cycle the step plays the LastDay
announcement and moves to `OffSeason`; no credential branch runs (the
command list is exactly the one announcement and even `userKey` is not
touched), and the other FSM variables are unchanged. -/
theorem C4_empty_day24_priority (audioOk : Nat → Bool) (m : Machine) (inp : Input)
    (hs : m.boxState = BoxState.Empty) (hd : inp.rtc.date = 24) :
    (fsmStep audioOk m inp).machine.boxState = BoxState.OffSeason ∧
    (fsmStep audioOk m inp).commands = [Command.play AnnouncementLastDay] ∧
    (fsmStep audioOk m inp).machine.userKey = m.userKey ∧
    (fsmStep audioOk m inp).machine.lastDay = m.lastDay ∧
    (fsmStep audioOk m inp).machine.firstUse = m.firstUse ∧
    (fsmStep audioOk m inp).machine.blinking = m.blinking := by
  simp [fsmStep, hs, hd, playTrack]

/-- C4 witness: day 24 in `Empty` with a standard credential presented
the same cycle; the season still ends. -/
theorem C4_empty_day24_priority_witness :
    (fsmStep audioAllOk ⟨BoxState.Empty, 23, false, false, some BoxState.Empty, User.Unknown⟩
        ⟨⟨12, 24, 9⟩, false, some RFIDStandardKey⟩).machine.boxState = BoxState.OffSeason ∧
    (fsmStep audioAllOk ⟨BoxState.Empty, 23, false, false, some BoxState.Empty, User.Unknown⟩
        ⟨⟨12, 24, 9⟩, false, some RFIDStandardKey⟩).commands =
      [Command.play AnnouncementLastDay] ∧
    (fsmStep audioAllOk ⟨BoxState.Empty, 23, false, false, some BoxState.Empty, User.Unknown⟩
        ⟨⟨12, 24, 9⟩, false, some RFIDStandardKey⟩).machine.userKey = User.Unknown ∧
    (fsmStep audioAllOk ⟨BoxState.Empty, 23, false, false, some BoxState.Empty, User.Unknown⟩
        ⟨⟨12, 24, 9⟩, false, some RFIDStandardKey⟩).machine.lastDay = 23 ∧
    (fsmStep audioAllOk ⟨BoxState.Empty, 23, false, false, some BoxState.Empty, User.Unknown⟩
        ⟨⟨12, 24, 9⟩, false, some RFIDStandardKey⟩).machine.firstUse = false ∧
    (fsmStep audioAllOk ⟨BoxState.Empty, 23, false, false, some BoxState.Empty, User.Unknown⟩
        ⟨⟨12, 24, 9⟩, false, some RFIDStandardKey⟩).machine.blinking = false :=
  C4_empty_day24_priority audioAllOk
    ⟨BoxState.Empty, 23, false, false, some BoxState.Empty, User.Unknown⟩
    ⟨⟨12, 24, 9⟩, false, some RFIDStandardKey⟩ rfl rfl

/-- C5: in `OffSeason`, a Master credential always unlocks, plays the
OpenedForFirstFilling announcement and moves to `OpenedForFilling`;
`firstUse` becomes true exactly when `month = 12` and `date = 1`, and
false on every other date. -/
theorem C5_offseason_master (audioOk : Nat → Bool) (m : Machine) (inp : Input)
    (uid : List Nat) (hs : m.boxState = BoxState.OffSeason)
    (hcard : inp.card = some uid) (hu : readRFIDKey uid = User.Master) :
    (fsmStep audioOk m inp).machine.boxState = BoxState.OpenedForFilling ∧
    (fsmStep audioOk m inp).commands =
      [Command.play AnnouncementBoxOpenedForFirstFilling, Command.unlock, Command.wait 6000] ∧
    (inp.rtc.month = 12 ∧ inp.rtc.date = 1 →
       (fsmStep audioOk m inp).machine.firstUse = true) ∧
    (¬(inp.rtc.month = 12 ∧ inp.rtc.date = 1) →
       (fsmStep audioOk m inp).machine.firstUse = false) := by
  by_cases hdec : inp.rtc.month = 12 ∧ inp.rtc.date = 1 <;>
    simp [fsmStep, hs, hcard, hu, playTrack, hdec]

/-- C5 witness: master key presented in `OffSeason` on December 1st. -/
theorem C5_offseason_master_witness :
    (fsmStep audioAllOk ⟨BoxState.OffSeason, -1, false, false, none, User.Unknown⟩
        ⟨⟨12, 1, 9⟩, true, some RFIDMasterKey⟩).machine.boxState =
      BoxState.OpenedForFilling ∧
    (fsmStep audioAllOk ⟨BoxState.OffSeason, -1, false, false, none, User.Unknown⟩
        ⟨⟨12, 1, 9⟩, true, some RFIDMasterKey⟩).commands =
      [Command.play AnnouncementBoxOpenedForFirstFilling, Command.unlock, Command.wait 6000] ∧
    ((12 : Int) = 12 ∧ (1 : Int) = 1 →
       (fsmStep audioAllOk ⟨BoxState.OffSeason, -1, false, false, none, User.Unknown⟩
           ⟨⟨12, 1, 9⟩, true, some RFIDMasterKey⟩).machine.firstUse = true) ∧
    (¬((12 : Int) = 12 ∧ (1 : Int) = 1) →
       (fsmStep audioAllOk ⟨BoxState.OffSeason, -1, false, false, none, User.Unknown⟩
           ⟨⟨12, 1, 9⟩, true, some RFIDMasterKey⟩).machine.firstUse = false) :=
  C5_offseason_master audioAllOk
    ⟨BoxState.OffSeason, -1, false, false, none, User.Unknown⟩
    ⟨⟨12, 1, 9⟩, true, some RFIDMasterKey⟩ RFIDMasterKey rfl rfl (by decide)

/-- C6: in `OpenedForChecking`, when the lid closes the branch priority
is: `firstUse` first (play ClosedAfterCheckAlreadyPreparedForFirstUse,
lock, `ReadyForFirstUse`), then `date ≠ lastDay` (play
ClosedAfterCheckAlreadyPrepared, lock, `ReadyForUse`), else play
ClosedAfterCheck, lock and go to `Filled` — in particular with
`firstUse = false` and `date = lastDay` the next state is `Filled`. -/
theorem C6_checking_lid_closed_priority (audioOk : Nat → Bool) (m : Machine)
    (inp : Input) (hs : m.boxState = BoxState.OpenedForChecking)
    (hlid : inp.lidClosed = true) :
    (m.firstUse = true →
       (fsmStep audioOk m inp).machine.boxState = BoxState.ReadyForFirstUse ∧
       (fsmStep audioOk m inp).commands =
         [Command.play AnnouncementBoxClosedAfterCheckAlreadyPreparedForFirstUse,
          Command.lock]) ∧
    (m.firstUse = false → inp.rtc.date ≠ m.lastDay →
       (fsmStep audioOk m inp).machine.boxState = BoxState.ReadyForUse ∧
       (fsmStep audioOk m inp).commands =
         [Command.play AnnouncementBoxClosedAfterCheckAlreadyPrepared, Command.lock]) ∧
    (m.firstUse = false → inp.rtc.date = m.lastDay →
       (fsmStep audioOk m inp).machine.boxState = BoxState.Filled ∧
       (fsmStep audioOk m inp).commands =
         [Command.play AnnouncementBoxClosedAfterCheck, Command.lock]) := by
  refine ⟨?_, ?_, ?_⟩
  · intro hfu
    simp [fsmStep, hs, hlid, hfu, playTrack]
  · intro hfu hd
    simp [fsmStep, hs, hlid, hfu, hd, playTrack]
  · intro hfu hd
    simp [fsmStep, hs, hlid, hfu, hd, playTrack]

/-- C6 witness: lid closes in `OpenedForChecking` with `firstUse =
false` and `date = lastDay`: ClosedAfterCheck plays and the state is
`Filled`, not `ReadyForUse`. -/
theorem C6_checking_lid_closed_priority_witness :
    (fsmStep audioAllOk
        ⟨BoxState.OpenedForChecking, 4, true, false,
         some BoxState.OpenedForChecking, User.Unknown⟩
        ⟨⟨12, 4, 9⟩, true, none⟩).machine.boxState = BoxState.Filled ∧
    (fsmStep audioAllOk
        ⟨BoxState.OpenedForChecking, 4, true, false,
         some BoxState.OpenedForChecking, User.Unknown⟩
        ⟨⟨12, 4, 9⟩, true, none⟩).commands =
      [Command.play AnnouncementBoxClosedAfterCheck, Command.lock] :=
  (C6_checking_lid_closed_priority audioAllOk
      ⟨BoxState.OpenedForChecking, 4, true, false,
       some BoxState.OpenedForChecking, User.Unknown⟩
      ⟨⟨12, 4, 9⟩, true, none⟩ rfl rfl).2.2 rfl rfl

/-- C7: the Daily Announcement selects the greeting by ordered guards —
hour 6 gives the EarlyMorning greeting (band (5,7)), hours 7–10 give
the Morning greeting (band (5,11), reached only when the first guard
failed), every other hour gives the Generic greeting — and then plays
the daily content track at zero-based index `date - 1` of the 24-entry
table, so date 5 selects index 4 and date 24 selects index 23; it is
the routine run on a Standard credential in `ReadyForUse`. -/
theorem C7_daily_announcement_selection :
    (∀ (audioOk : Nat → Bool) (rtc : Rtc), rtc.hour = 6 →
       (doDailyAnnouncement audioOk rtc).1 =
         [Command.play DaylyEarlyMorningGreeting, Command.wait 5000,
          Command.play (DaylyAnnouncement.getD (rtc.date - 1).toNat 0)]) ∧
    (∀ (audioOk : Nat → Bool) (rtc : Rtc), 7 ≤ rtc.hour → rtc.hour ≤ 10 →
       (doDailyAnnouncement audioOk rtc).1 =
         [Command.play DaylyMorningGreeting, Command.wait 5000,
          Command.play (DaylyAnnouncement.getD (rtc.date - 1).toNat 0)]) ∧
    (∀ (audioOk : Nat → Bool) (rtc : Rtc), rtc.hour ≤ 5 ∨ 11 ≤ rtc.hour →
       (doDailyAnnouncement audioOk rtc).1 =
         [Command.play DaylyGreeting, Command.wait 5000,
          Command.play (DaylyAnnouncement.getD (rtc.date - 1).toNat 0)]) ∧
    DaylyAnnouncement.length = 24 ∧
    (∀ (audioOk : Nat → Bool) (rtc : Rtc), rtc.date = 5 →
       (doDailyAnnouncement audioOk rtc).1.drop 2 =
         [Command.play (DaylyAnnouncement.getD 4 0)]) ∧
    (∀ (audioOk : Nat → Bool) (rtc : Rtc), rtc.date = 24 →
       (doDailyAnnouncement audioOk rtc).1.drop 2 =
         [Command.play (DaylyAnnouncement.getD 23 0)]) ∧
    (∀ (audioOk : Nat → Bool) (m : Machine) (inp : Input) (uid : List Nat),
       m.boxState = BoxState.ReadyForUse → inp.card = some uid →
       readRFIDKey uid = User.Standard →
       (fsmStep audioOk m inp).commands =
         (doDailyAnnouncement audioOk inp.rtc).1 ++ [Command.unlock, Command.wait 5000]) := by
  refine ⟨?_, ?_, ?_, rfl, ?_, ?_, ?_⟩
  · intro audioOk rtc h
    have h1 : 5 < rtc.hour ∧ rtc.hour < 7 := by omega
    simp [doDailyAnnouncement, playTrack, h1]
  · intro audioOk rtc h7 h10
    have h1 : ¬(5 < rtc.hour ∧ rtc.hour < 7) := by omega
    have h2 : 5 < rtc.hour ∧ rtc.hour < 11 := by omega
    simp only [doDailyAnnouncement, playTrack]
    rw [if_neg h1, if_pos h2]
    rfl
  · intro audioOk rtc h
    have h1 : ¬(5 < rtc.hour ∧ rtc.hour < 7) := by omega
    have h2 : ¬(5 < rtc.hour ∧ rtc.hour < 11) := by omega
    simp [doDailyAnnouncement, playTrack, h1, h2]
  · intro audioOk rtc h
    simp only [doDailyAnnouncement, playTrack, h]
    split_ifs <;> rfl
  · intro audioOk rtc h
    simp only [doDailyAnnouncement, playTrack, h]
    split_ifs <;> rfl
  · intro audioOk m inp uid hs hcard hu
    simp [fsmStep, readyForUseBody, hs, hcard, hu]

/-- C7 witness: at hour 6 on December 5th the EarlyMorning greeting and
the index-4 daily track are selected, and the Standard-credential path
in `ReadyForUse` emits exactly the Daily Announcement commands followed
by unlock and settle delay. -/
theorem C7_daily_announcement_selection_witness :
    (doDailyAnnouncement audioAllOk ⟨12, 5, 6⟩).1 =
      [Command.play DaylyEarlyMorningGreeting, Command.wait 5000,
       Command.play (DaylyAnnouncement.getD 4 0)] ∧
    (fsmStep audioAllOk
        ⟨BoxState.ReadyForUse, 3, true, false, some BoxState.ReadyForUse, User.Unknown⟩
        ⟨⟨12, 5, 6⟩, false, some RFIDStandardKey⟩).commands =
      (doDailyAnnouncement audioAllOk ⟨12, 5, 6⟩).1 ++ [Command.unlock, Command.wait 5000] :=
  ⟨C7_daily_announcement_selection.1 audioAllOk ⟨12, 5, 6⟩ rfl,
   C7_daily_announcement_selection.2.2.2.2.2.2 audioAllOk
     ⟨BoxState.ReadyForUse, 3, true, false, some BoxState.ReadyForUse, User.Unknown⟩
     ⟨⟨12, 5, 6⟩, false, some RFIDStandardKey⟩ RFIDStandardKey rfl rfl (by decide)⟩

/-- C8: the access `DaylyAnnouncement[date - 1]` is in bounds exactly
under `1 ≤ date ≤ 24`; for a calendar date in 25–31 the index is past
the end of the 24-entry table, and such a date still re-enters
`ReadyForUse` from `Filled` on a new December day (concrete instance
with date 25). -/
theorem C8_daily_index_bounds :
    (∀ d : Int, 1 ≤ d → d ≤ 24 → dailyTrackIndexOk d) ∧
    (∀ d : Int, 25 ≤ d → d ≤ 31 → ¬ dailyTrackIndexOk d) ∧
    (fsmStep audioAllOk
        ⟨BoxState.Filled, 24, true, false, some BoxState.Filled, User.Unknown⟩
        ⟨⟨12, 25, 9⟩, false, none⟩).machine.boxState = BoxState.ReadyForUse := by
  refine ⟨?_, ?_, by decide⟩
  · intro d h1 h2
    unfold dailyTrackIndexOk
    simp [DaylyAnnouncement]
    omega
  · intro d h1 h2
    unfold dailyTrackIndexOk
    simp [DaylyAnnouncement]
    omega

/-- C8 witness: date 5 is in bounds, date 25 is out of bounds. -/
theorem C8_daily_index_bounds_witness :
    (1 : Int) ≤ 5 ∧ (5 : Int) ≤ 24 ∧ dailyTrackIndexOk 5 ∧
    (25 : Int) ≤ 25 ∧ (25 : Int) ≤ 31 ∧ ¬ dailyTrackIndexOk 25 :=
  ⟨by decide, by decide, C8_daily_index_bounds.1 5 (by decide) (by decide),
   by decide, by decide, C8_daily_index_bounds.2.1 25 (by decide) (by decide)⟩

/-- C9: credential classification returns Master exactly on a uid equal
to the fixed master key (same length, bytes equal), Standard exactly on
a uid equal to the fixed standard key, and Unknown in every other
case. -/
theorem C9_rfid_classification (uid : List Nat) :
    (readRFIDKey uid = User.Master ↔ uid = RFIDMasterKey) ∧
    (readRFIDKey uid = User.Standard ↔ uid = RFIDStandardKey) ∧
    (readRFIDKey uid = User.Unknown ↔ uid ≠ RFIDMasterKey ∧ uid ≠ RFIDStandardKey) := by
  have hkeys : RFIDMasterKey ≠ RFIDStandardKey := by decide
  by_cases h1 : uid = RFIDMasterKey
  · subst h1
    refine ⟨by simp [readRFIDKey], ?_, ?_⟩ <;>
      simp [readRFIDKey, length_take_eq_iff, hkeys]
  · by_cases h2 : uid = RFIDStandardKey
    · subst h2
      have hm : ¬(RFIDStandardKey.length = RFIDMasterKey.length ∧
          RFIDStandardKey.take RFIDMasterKey.length = RFIDMasterKey) := by decide
      refine ⟨?_, ?_, ?_⟩ <;> simp [readRFIDKey, hm, length_take_eq_iff, hkeys.symm]
    · have hm : ¬(uid.length = RFIDMasterKey.length ∧
          uid.take RFIDMasterKey.length = RFIDMasterKey) := by
        rw [length_take_eq_iff]; exact h1
      have hst : ¬(uid.length = RFIDStandardKey.length ∧
          uid.take RFIDStandardKey.length = RFIDStandardKey) := by
        rw [length_take_eq_iff]; exact h2
      refine ⟨?_, ?_, ?_⟩ <;> simp [readRFIDKey, hm, hst, h1, h2]

/-- C9 witness: the two fixed keys classify as Master and Standard, and
a third identifier classifies as Unknown. -/
theorem C9_rfid_classification_witness :
    readRFIDKey RFIDMasterKey = User.Master ∧
    readRFIDKey RFIDStandardKey = User.Standard ∧
    readRFIDKey [9, 9, 9] = User.Unknown :=
  ⟨(C9_rfid_classification RFIDMasterKey).1.mpr rfl,
   (C9_rfid_classification RFIDStandardKey).2.1.mpr rfl,
   (C9_rfid_classification [9, 9, 9]).2.2.mpr (by decide)⟩

set_option maxHeartbeats 1000000 in
/-- C10: for every state and input, the resulting machine state
(including `lastDay`, `firstUse`, `blinking`) and the emitted command
sequence are identical under any two audio oracles — playback failure
only changes the diagnostic output, never the transition. -/
theorem C10_audio_failure_independent (a b : Nat → Bool) (m : Machine) (inp : Input) :
    (fsmStep a m inp).machine = (fsmStep b m inp).machine ∧
    (fsmStep a m inp).commands = (fsmStep b m inp).commands := by
  obtain ⟨bs, ld, bl, fu, ls, uk⟩ := m
  obtain ⟨rtcv, lid, card⟩ := inp
  cases bs <;> rcases card with _ | uid <;>
    simp only [fsmStep, readyForUseBody, playTrack] <;>
    (try split_ifs) <;>
    first
      | exact ⟨trivial, trivial⟩
      | exact ⟨rfl, rfl⟩
      | (rcases hu : readRFIDKey uid <;>
          simp [hu, doDailyAnnouncement_commands_eq a b])

/-- C10 witness: a failing audio oracle and an always-succeeding one
give the same machine and commands on a concrete `Empty` day-24 step. -/
theorem C10_audio_failure_independent_witness :
    (fsmStep (fun _ => false)
        ⟨BoxState.Empty, 23, false, false, some BoxState.Empty, User.Unknown⟩
        ⟨⟨12, 24, 9⟩, false, none⟩).machine =
      (fsmStep audioAllOk
        ⟨BoxState.Empty, 23, false, false, some BoxState.Empty, User.Unknown⟩
        ⟨⟨12, 24, 9⟩, false, none⟩).machine ∧
    (fsmStep (fun _ => false)
        ⟨BoxState.Empty, 23, false, false, some BoxState.Empty, User.Unknown⟩
        ⟨⟨12, 24, 9⟩, false, none⟩).commands =
      (fsmStep audioAllOk
        ⟨BoxState.Empty, 23, false, false, some BoxState.Empty, User.Unknown⟩
        ⟨⟨12, 24, 9⟩, false, none⟩).commands :=
  C10_audio_failure_independent (fun _ => false) audioAllOk
    ⟨BoxState.Empty, 23, false, false, some BoxState.Empty, User.Unknown⟩
    ⟨⟨12, 24, 9⟩, false, none⟩

end Advent
